import Mathlib

/-!
Verification of the vsi2tif batch conversion core.

A shallow embedding of `src/vsi2tif.py`: the batch conversion orchestrator
(`MainWindow.run_conversion`, lines 67-110) and the per-file conversion task
(`convert_vsi_to_tif`, lines 113-136).

Modelling decisions, each tied to the source:
* Side effects (message boxes, `sj.config.add_option`, `imagej.init`,
  `os.listdir`, `executor.submit`, per-file `print`s, the completion box)
  become an explicit trace of `Event`s emitted in program order.
* The external codec / ImageJ calls inside `convert_vsi_to_tif` are opaque:
  a `CodecBehavior` record says, for each fallible call site, whether that
  call raises (with a message) or succeeds.  The Python `try/except/finally`
  control flow is then translated literally.
* Python strings are Lean `String`s.  Python compares strings by code
  point, so `sorted` is modelled as sorting by the code-point lexicographic
  order `strLe` (defined below on the character lists), and
  `f.endswith('.vsi')` as a character-list suffix test: both agree with
  Python's semantics and, unlike `String.lt` / `String.endsWith` from the
  core library, evaluate by kernel reduction on concrete inputs.
* `ThreadPoolExecutor(max_workers=N)` is modelled for the concurrency claim
  as a small-step relation on an executor state: a pending task may start
  only while fewer than `N` tasks are running.
-/

namespace Vsi2Tif

/-! Directory entries and file discovery (line 95). -/

/-- Kind of a directory entry.  `os.listdir` returns names of all entries,
files and subdirectories alike. -/
inductive EntryKind where
  | file
  | dir
  deriving DecidableEq

/-- One entry of the source directory, as seen by `os.listdir`. -/
structure DirEntry where
  name : String
  kind : EntryKind
  deriving DecidableEq

/-- The names of all entries of the directory, in directory order:
`os.listdir(vsi_folder)`. -/
def listdir (d : List DirEntry) : List String :=
  d.map (fun e => e.name)

/-- The characters of the suffix and separator `'.vsi'`. -/
def vsiSep : List Char := ['.', 'v', 's', 'i']

/-- Python `f.endswith('.vsi')`: the character list of `f` ends with
`'.vsi'`. -/
def endsWithVsi (f : String) : Bool :=
  vsiSep.isSuffixOf f.data

/-- Code-point lexicographic comparison of character lists: Python's `<=`
on strings, which `sorted` uses. -/
def charListLe : List Char → List Char → Bool
  | [], _ => true
  | _ :: _, [] => false
  | a :: as, b :: bs =>
    if a < b then true else if b < a then false else charListLe as bs

/-- The order by which Python `sorted` arranges the file names. -/
def strLe (a b : String) : Prop :=
  charListLe a.data b.data = true

instance : DecidableRel strLe :=
  fun a b => inferInstanceAs (Decidable (charListLe a.data b.data = true))

instance : IsTrans String strLe where
  trans := by
    have H : ∀ as bs cs : List Char, charListLe as bs = true →
        charListLe bs cs = true → charListLe as cs = true := by
      intro as
      induction as with
      | nil => intro bs cs _ _; rfl
      | cons a as ih =>
        intro bs cs h1 h2
        cases bs with
        | nil => simp [charListLe] at h1
        | cons b bs =>
          cases cs with
          | nil => simp [charListLe] at h2
          | cons c cs =>
            simp only [charListLe] at h1 h2 ⊢
            by_cases hab : a < b
            · by_cases hbc : b < c
              · rw [if_pos (lt_trans hab hbc)]
              · rw [if_neg hbc] at h2
                by_cases hcb : c < b
                · rw [if_pos hcb] at h2; exact absurd h2 (by simp)
                · have hbceq : b = c := le_antisymm (not_lt.mp hcb) (not_lt.mp hbc)
                  subst hbceq
                  rw [if_pos hab]
            · rw [if_neg hab] at h1
              by_cases hba : b < a
              · rw [if_pos hba] at h1; exact absurd h1 (by simp)
              · rw [if_neg hba] at h1
                have habeq : a = b := le_antisymm (not_lt.mp hba) (not_lt.mp hab)
                subst habeq
                by_cases hac : a < c
                · rw [if_pos hac]
                · rw [if_neg hac] at h2 ⊢
                  by_cases hca : c < a
                  · rw [if_pos hca] at h2; exact absurd h2 (by simp)
                  · rw [if_neg hca] at h2 ⊢
                    exact ih bs cs h1 h2
    intro a b c h1 h2
    exact H a.data b.data c.data h1 h2

instance : IsTotal String strLe where
  total := by
    have H : ∀ as bs : List Char,
        charListLe as bs = true ∨ charListLe bs as = true := by
      intro as
      induction as with
      | nil => intro bs; exact Or.inl rfl
      | cons a as ih =>
        intro bs
        cases bs with
        | nil => exact Or.inr rfl
        | cons b bs =>
          simp only [charListLe]
          by_cases hab : a < b
          · exact Or.inl (by rw [if_pos hab])
          · by_cases hba : b < a
            · exact Or.inr (by rw [if_pos hba])
            · rw [if_neg hab, if_neg hba, if_neg hba, if_neg hab]
              exact ih bs
    intro a b
    exact H a.data b.data

/-- Line 95: `sorted([f for f in os.listdir(vsi_folder) if f.endswith('.vsi')])`.
The entries are filtered by the name suffix alone — the kind of the entry
is never consulted — and sorted by the code-point lexicographic order. -/
def discoverVsiFiles (d : List DirEntry) : List String :=
  List.insertionSort strLe ((listdir d).filter (fun f => endsWithVsi f))

/-! Destination name (lines 114-115). -/

/-- Python `s.split(sep)[0]` for a non-empty `sep`: the portion of `s`
strictly before the first occurrence of `sep`, or all of `s` when `sep`
does not occur. -/
def splitFirst (sep : List Char) : List Char → List Char
  | [] => []
  | c :: rest =>
    if sep.isPrefixOf (c :: rest) then [] else c :: splitFirst sep rest

/-- Model of `os.path.join(folder, name)` for a relative `name` and a
`folder` without a trailing separator. -/
def osPathJoin (folder name : String) : String :=
  folder ++ "/" ++ name

/-- Line 115, the base name: `vsi_file.split('.vsi')[0] + '.tif'`. -/
def save_name (vsi_file : String) : String :=
  String.mk (splitFirst vsiSep vsi_file.data) ++ ".tif"

/-- Line 115: `save_url = os.path.join(tif_folder, vsi_file.split('.vsi')[0] + '.tif')`. -/
def save_url (tif_folder vsi_file : String) : String :=
  osPathJoin tif_folder (save_name vsi_file)

/-- Definition following the claim's words, for comparison with `save_name`:
the base name with the final `'.vsi'` suffix (4 characters) replaced by
`'.tif'`. -/
def suffixReplacedName (name : String) : String :=
  String.mk (name.data.take (name.data.length - 4)) ++ ".tif"

/-! The conversion task `convert_vsi_to_tif` (lines 113-136). -/

/-- Outcome of running a Python callable: normal return or an uncaught
exception carrying a message. -/
inductive PyResult (α : Type) where
  | ok (a : α)
  | exn (msg : String)
  deriving DecidableEq

/-- For each fallible call site of `convert_vsi_to_tif`, whether the
external call raises (`some` message) or succeeds (`none`):
* `preTryErr`: the setup before the `try` (lines 117-120, `sj.jimport` /
  `ImporterOptions` / `setId`) — an error here propagates out of the task;
* `openErr`: `ij.io().open(...)` (line 123), the decode of the .vsi file;
* `fromJavaErr`: `ij.py.from_java(jimage)` (line 124);
* `valuesErr`: `image_array.values` (line 125);
* `writeErr`: `tiff.imwrite(...)` (line 127), the write of the .tif file. -/
structure CodecBehavior where
  preTryErr : Option String
  openErr : Option String
  fromJavaErr : Option String
  valuesErr : Option String
  writeErr : Option String
  deriving DecidableEq

/-- Observable steps of one conversion task, in order of occurrence. -/
inductive TaskEvent where
  /-- Line 123 succeeded: `jimage = ij.io().open(image_url, ...)` with
  `image_url = os.path.join(vsi_folder, vsi_file)` (line 114); the decoded
  image handle `jimage` now exists as a local variable. -/
  | openImage (path : String)
  /-- Line 124 succeeded: the converted buffer `image_array` now exists as
  a local variable. -/
  | fromJava
  /-- Line 127 succeeded: `tiff.imwrite(save_url, ...)`. -/
  | writeTif (path : String)
  /-- Line 128: `print(f"Image saved successfully to {save_url}.")`. -/
  | printSaved (path : String)
  /-- Line 130: `print(f"Error during conversion of {vsi_file}: {e}")`. -/
  | printError (file msg : String)
  /-- Lines 132-133: `del image_array`, guarded by `'image_array' in locals()`. -/
  | delImageArray
  /-- Lines 134-135: `del jimage`, guarded by `'jimage' in locals()`. -/
  | delJimage
  /-- Line 136: `gc.collect()`. -/
  | gcCollect
  deriving DecidableEq

/-- Lines 131-136, the `finally` block: delete whichever of `image_array`
and `jimage` were assigned, then force a garbage collection. -/
def finallyEvents (hasImageArray hasJimage : Bool) : List TaskEvent :=
  (if hasImageArray then [TaskEvent.delImageArray] else []) ++
    (if hasJimage then [TaskEvent.delJimage] else []) ++ [TaskEvent.gcCollect]

/-- Lines 113-136, `convert_vsi_to_tif(vsi_file, vsi_folder, tif_folder, ij)`:
returns the Python result of the call (normal return or uncaught exception)
together with the trace of task events.

Control flow of the source, line by line: an error in the setup before the
`try` (lines 114-120) propagates, and the `finally` of the later `try` does
not run (no locals were assigned); any error inside the `try`
(lines 122-127) is caught by `except` (lines 129-130), which prints a
per-file error message, after which the function returns normally; the
`finally` (lines 131-136) runs on success and on caught errors, deleting
exactly the locals that were assigned before the error. -/
def convert_vsi_to_tif (vsi_file vsi_folder tif_folder : String)
    (b : CodecBehavior) : PyResult Unit × List TaskEvent :=
  let image_url := osPathJoin vsi_folder vsi_file
  match b.preTryErr with
  | some m => (PyResult.exn m, [])
  | none =>
    match b.openErr with
    | some m =>
      (PyResult.ok (), [TaskEvent.printError vsi_file m] ++ finallyEvents false false)
    | none =>
      match b.fromJavaErr with
      | some m =>
        (PyResult.ok (),
          [TaskEvent.openImage image_url, TaskEvent.printError vsi_file m] ++
            finallyEvents false true)
      | none =>
        match b.valuesErr with
        | some m =>
          (PyResult.ok (),
            [TaskEvent.openImage image_url, TaskEvent.fromJava,
              TaskEvent.printError vsi_file m] ++ finallyEvents true true)
        | none =>
          match b.writeErr with
          | some m =>
            (PyResult.ok (),
              [TaskEvent.openImage image_url, TaskEvent.fromJava,
                TaskEvent.printError vsi_file m] ++ finallyEvents true true)
          | none =>
            (PyResult.ok (),
              [TaskEvent.openImage image_url, TaskEvent.fromJava,
                TaskEvent.writeTif (save_url tif_folder vsi_file),
                TaskEvent.printSaved (save_url tif_folder vsi_file)] ++
                finallyEvents true true)

/-- The first error hit inside the `try` block (lines 122-127), in the
order the source performs the calls; the decode of the .vsi file and the
write of the .tif file both happen here. -/
def firstTryErr (b : CodecBehavior) : Option String :=
  match b.openErr with
  | some m => some m
  | none =>
    match b.fromJavaErr with
    | some m => some m
    | none =>
      match b.valuesErr with
      | some m => some m
      | none => b.writeErr

/-! The executor result loop (lines 100-108). -/

/-- The per-file notification printed by `run_conversion` for one completed
future (lines 104-108): `Processed {file} successfully.` when
`future.result()` returns normally, `Error processing {file}: {e}` when it
raises. -/
inductive Notification where
  | processedOk (file : String)
  | processedErr (file msg : String)
  deriving DecidableEq

/-- The input name a notification refers to. -/
def Notification.file : Notification → String
  | Notification.processedOk f => f
  | Notification.processedErr f _ => f

/-- Whether a notification reports a failure. -/
def Notification.isFailure : Notification → Bool
  | Notification.processedOk _ => false
  | Notification.processedErr _ _ => true

/-- Lines 102-108: for one completed future, `future.result()` is
inspected — a normal return prints the success notification, an exception
is caught and prints the error notification. -/
def futureNotification (vsi_folder tif_folder : String)
    (bhv : String → CodecBehavior) (file : String) : Notification :=
  match (convert_vsi_to_tif file vsi_folder tif_folder (bhv file)).1 with
  | PyResult.ok _ => Notification.processedOk file
  | PyResult.exn m => Notification.processedErr file m

/-- Lines 100-108: one task is submitted per discovered file and one
notification is printed per completed future.  The notification list is
produced here in submission order; `as_completed` yields the same multiset
in an unspecified order. -/
def runExecutor (files : List String) (vsi_folder tif_folder : String)
    (bhv : String → CodecBehavior) : List Notification :=
  files.map (futureNotification vsi_folder tif_folder bhv)

/-! The batch coordinator `run_conversion` (lines 67-110). -/

/-- Observable steps of one `run_conversion` call, in program order. -/
inductive Event where
  /-- Lines 78 and 88: `QtWidgets.QMessageBox.critical(self, title, msg)`. -/
  | criticalBox (title msg : String)
  /-- Lines 97 and 110: `QtWidgets.QMessageBox.information(self, title, msg)`. -/
  | infoBox (title msg : String)
  /-- Line 91: `sj.config.add_option(f'-Xmx{gigs_of_memory}g')`, carrying
  the memory figure interpolated into the option string. -/
  | addOption (gigs : Int)
  /-- Line 92: `imagej.init('sc.fiji:fiji', mode='headless')`. -/
  | imagejInit
  /-- Line 95: `os.listdir(vsi_folder)` — the only filesystem access of the
  coordinator. -/
  | listDir
  /-- Line 101: `executor.submit(convert_vsi_to_tif, file, ...)`. -/
  | submit (file : String)
  /-- Lines 106 and 108: the per-file `print` for one completed future. -/
  | notify (n : Notification)
  deriving DecidableEq

/-- Line 110, the batch completion signal:
`QMessageBox.information(self, "Completion", "All conversions completed.")`. -/
def completionEvent : Event :=
  Event.infoBox "Completion" "All conversions completed."

/-- Lines 67-110, `MainWindow.run_conversion`, after the text fields have
been parsed to the integers `gigs_of_memory` and `max_workers`:
1. validate `gigs_of_memory > 0` (lines 75-79), else show a critical box
   and return;
2. validate `max_workers > 0` (lines 85-89), else show a critical box and
   return;
3. set the JVM memory option and initialise ImageJ (lines 91-92);
4. list and filter the source directory (line 95); if no `.vsi` entries,
   show an informational box and return (lines 96-98);
5. submit one task per file, print one notification per completed future
   (lines 100-108), then show the completion box (line 110). -/
def run_conversion (gigs_of_memory max_workers : Int) (dir : List DirEntry)
    (vsi_folder tif_folder : String) (bhv : String → CodecBehavior) : List Event :=
  if gigs_of_memory ≤ 0 then
    [Event.criticalBox "Input Error"
      "Invalid memory input: Memory must be a positive integer."]
  else if max_workers ≤ 0 then
    [Event.criticalBox "Input Error"
      "Invalid process input: Processes must be a positive integer."]
  else
    [Event.addOption gigs_of_memory, Event.imagejInit, Event.listDir] ++
      (if discoverVsiFiles dir = [] then
        [Event.infoBox "No Files" "No VSI files found in the selected folder."]
      else
        (discoverVsiFiles dir).map Event.submit ++
          (runExecutor (discoverVsiFiles dir) vsi_folder tif_folder bhv).map
            Event.notify ++
          [completionEvent])

/-- The file submitted by a `submit` event, if any. -/
def Event.submittedFile : Event → Option String
  | Event.submit f => some f
  | _ => none

/-- The file a per-file notification event refers to, if any. -/
def Event.notifiedFile : Event → Option String
  | Event.notify n => some n.file
  | _ => none

/-! A small-step model of `ThreadPoolExecutor(max_workers=N)` (line 100),
for the concurrency-ceiling claim. -/

/-- State of the bounded executor: tasks submitted but not yet started (in
submission order), tasks currently in flight, and finished tasks. -/
structure ExecState where
  pending : List String
  running : List String
  finished : List String
  deriving DecidableEq

/-- Small-step semantics of the thread pool created at line 100 with
`max_workers=maxWorkers`: the next pending task may start only while fewer
than `maxWorkers` tasks are in flight (a worker thread is free), and any
in-flight task may finish at any time (completion order is unspecified). -/
inductive ExecStep (maxWorkers : Nat) : ExecState → ExecState → Prop
  | start (f : String) (pending running finished : List String)
      (hfree : running.length < maxWorkers) :
      ExecStep maxWorkers ⟨f :: pending, running, finished⟩
        ⟨pending, f :: running, finished⟩
  | finish (f : String) (pending l r finished : List String) :
      ExecStep maxWorkers ⟨pending, l ++ f :: r, finished⟩
        ⟨pending, l ++ r, f :: finished⟩

/-- The executor's initial state: every discovered file submitted, nothing
started (lines 100-101). -/
def initState (files : List String) : ExecState :=
  ⟨files, [], []⟩

/-- The states the executor can pass through while processing `files`. -/
def Reachable (maxWorkers : Nat) (files : List String) (s : ExecState) : Prop :=
  Relation.ReflTransGen (ExecStep maxWorkers) (initState files) s

/-! Concrete inputs used by witnesses and counterexamples. -/

/-- A codec behaviour in which every external call succeeds. -/
def noErr : CodecBehavior :=
  ⟨none, none, none, none, none⟩

/-- Every file converts without error. -/
def allOk : String → CodecBehavior :=
  fun _ => noErr

/-- A codec behaviour in which the decode of the .vsi file
(`ij.io().open`, line 123) raises. -/
def corruptFileBhv : CodecBehavior :=
  ⟨none, some "corrupt", none, none, none⟩

/-- Every file fails to decode. -/
def corruptBhvMap : String → CodecBehavior :=
  fun _ => corruptFileBhv

/-- The spec's literal discovery scenario: a directory containing
`b.vsi, A.vsi, c.vsi`. -/
def scenarioDir : List DirEntry :=
  [⟨"b.vsi", EntryKind.file⟩, ⟨"A.vsi", EntryKind.file⟩, ⟨"c.vsi", EntryKind.file⟩]

/-- A subdirectory whose name ends in `.vsi`. -/
def vsiNamedSubdir : DirEntry :=
  ⟨"thumbs.vsi", EntryKind.dir⟩

/-- A directory with no `.vsi` entries. -/
def nonVsiDir : List DirEntry :=
  [⟨"notes.txt", EntryKind.file⟩]

/-- A directory with a single `.vsi` file. -/
def singleVsiDir : List DirEntry :=
  [⟨"a.vsi", EntryKind.file⟩]


/-! Helper lemmas. -/

/-- The task-level notification always names the task's own input file. -/
theorem futureNotification_file (vf tf : String) (bhv : String → CodecBehavior)
    (file : String) : Notification.file (futureNotification vf tf bhv file) = file := by
  unfold futureNotification
  cases (convert_vsi_to_tif file vf tf (bhv file)).1 <;> rfl

/-- The executor produces its notifications exactly over the submitted
files, in submission order. -/
theorem runExecutor_map_file (files : List String) (vf tf : String)
    (bhv : String → CodecBehavior) :
    (runExecutor files vf tf bhv).map Notification.file = files := by
  unfold runExecutor
  rw [List.map_map]
  have h : ∀ file ∈ files,
      (Notification.file ∘ futureNotification vf tf bhv) file = id file := by
    intro file _
    exact futureNotification_file vf tf bhv file
  rw [List.map_congr_left h, List.map_id]

/-- Splitting at the separator recovers the stem whenever the separator
occurs nowhere inside the stem (the separator `'.vsi'` cannot straddle the
boundary because no proper prefix of it is one of its suffixes). -/
theorem splitFirst_append_vsiSep (stem : List Char) (h : ¬ vsiSep <:+: stem) :
    splitFirst vsiSep (stem ++ vsiSep) = stem := by
  induction stem with
  | nil => rfl
  | cons c rest ih =>
    have hrest : ¬ vsiSep <:+: rest := by
      intro hi
      rcases hi with ⟨s, t, hst⟩
      exact h ⟨c :: s, t, by rw [List.cons_append, List.cons_append, hst]⟩
    have hcond : vsiSep.isPrefixOf (c :: (rest ++ vsiSep)) = false := by
      cases rest with
      | nil =>
        show vsiSep.isPrefixOf (c :: vsiSep) = false
        have e1 : vsiSep.isPrefixOf (c :: vsiSep) =
            (('.' == c) && List.isPrefixOf ['v', 's', 'i'] vsiSep) := rfl
        rw [e1, show List.isPrefixOf ['v', 's', 'i'] vsiSep = false from rfl,
          Bool.and_false]
      | cons a rest2 =>
        cases rest2 with
        | nil =>
          show vsiSep.isPrefixOf (c :: a :: vsiSep) = false
          have e1 : vsiSep.isPrefixOf (c :: a :: vsiSep) =
              (('.' == c) && (('v' == a) && List.isPrefixOf ['s', 'i'] vsiSep)) := rfl
          rw [e1, show List.isPrefixOf ['s', 'i'] vsiSep = false from rfl,
            Bool.and_false, Bool.and_false]
        | cons b rest3 =>
          cases rest3 with
          | nil =>
            show vsiSep.isPrefixOf (c :: a :: b :: vsiSep) = false
            have e1 : vsiSep.isPrefixOf (c :: a :: b :: vsiSep) =
                (('.' == c) && (('v' == a) && (('s' == b) &&
                  List.isPrefixOf ['i'] vsiSep))) := rfl
            rw [e1, show List.isPrefixOf ['i'] vsiSep = false from rfl,
              Bool.and_false, Bool.and_false, Bool.and_false]
          | cons dd rest4 =>
            cases hb : vsiSep.isPrefixOf (c :: ((a :: b :: dd :: rest4) ++ vsiSep)) with
            | false => rfl
            | true =>
              exfalso
              have e1 : vsiSep.isPrefixOf (c :: ((a :: b :: dd :: rest4) ++ vsiSep)) =
                  (('.' == c) && (('v' == a) && (('s' == b) && (('i' == dd) &&
                    List.isPrefixOf [] (rest4 ++ vsiSep))))) := rfl
              rw [e1] at hb
              simp only [Bool.and_eq_true, beq_iff_eq] at hb
              obtain ⟨hc, ha, hbb, hd, -⟩ := hb
              subst hc
              subst ha
              subst hbb
              subst hd
              exact h ⟨[], rest4, rfl⟩
    calc splitFirst vsiSep ((c :: rest) ++ vsiSep)
        = if vsiSep.isPrefixOf (c :: (rest ++ vsiSep)) then []
          else c :: splitFirst vsiSep (rest ++ vsiSep) := rfl
      _ = c :: splitFirst vsiSep (rest ++ vsiSep) := by
          rw [hcond, if_neg (by decide)]
      _ = c :: rest := by rw [ih hrest]

/-- Submit events extracted from a block of submit events. -/
theorem filterMap_submittedFile_submits (fs : List String) :
    (fs.map Event.submit).filterMap Event.submittedFile = fs := by
  induction fs with
  | nil => rfl
  | cons f fs ih => simp [List.filterMap_cons, Event.submittedFile, ih]

/-- Notification events contribute no submit events. -/
theorem filterMap_submittedFile_notifies (ns : List Notification) :
    (ns.map Event.notify).filterMap Event.submittedFile = [] := by
  induction ns with
  | nil => rfl
  | cons n ns ih => simp [List.filterMap_cons, Event.submittedFile, ih]

/-- Submit events contribute no notification events. -/
theorem filterMap_notifiedFile_submits (fs : List String) :
    (fs.map Event.submit).filterMap Event.notifiedFile = [] := by
  induction fs with
  | nil => rfl
  | cons f fs ih => simp [List.filterMap_cons, Event.notifiedFile, ih]

/-- The files referenced by a block of notification events. -/
theorem filterMap_notifiedFile_notifies (ns : List Notification) :
    (ns.map Event.notify).filterMap Event.notifiedFile = ns.map Notification.file := by
  induction ns with
  | nil => rfl
  | cons n ns ih => simp [List.filterMap_cons, Event.notifiedFile, ih]

/-! Claim theorems. -/

/-- C4: file discovery returns exactly the directory entries whose name
ends with `'.vsi'`, sorted by the code-point lexicographic order on names;
on a directory containing `b.vsi, A.vsi, c.vsi` it returns the sequence
`A.vsi, b.vsi, c.vsi`. -/
theorem discovery_sorted_matching_entries (d : List DirEntry) :
    List.Sorted strLe (discoverVsiFiles d) ∧
      (discoverVsiFiles d).Perm ((listdir d).filter (fun f => endsWithVsi f)) ∧
      discoverVsiFiles scenarioDir = ["A.vsi", "b.vsi", "c.vsi"] :=
  ⟨List.sorted_insertionSort strLe _, List.perm_insertionSort strLe _, by decide⟩

/-- C5 counterexample: for an input name containing `'.vsi'` before the
final suffix, the destination path computed by line 115 keeps only the
portion before the FIRST `'.vsi'`, which differs from replacing the final
suffix: `'a.vsi.vsi'` is written to `out/a.tif`, not `out/a.vsi.tif`. -/
theorem save_name_not_suffix_replacement :
    endsWithVsi "a.vsi.vsi" = true ∧
      save_url "out" "a.vsi.vsi" = "out/a.tif" ∧
      osPathJoin "out" (suffixReplacedName "a.vsi.vsi") = "out/a.vsi.tif" ∧
      save_url "out" "a.vsi.vsi" ≠ osPathJoin "out" (suffixReplacedName "a.vsi.vsi") :=
  ⟨by decide, by decide, by decide, by decide⟩

/-- C5 (amended): the destination path is the destination directory joined
with the portion of the input name before the first occurrence of
`'.vsi'`, with `'.tif'` appended; when `'.vsi'` does not occur inside the
stem — i.e. its only occurrence is the final suffix — this coincides with
replacing the suffix. -/
theorem save_url_first_occurrence (tif_folder : String) (stem : List Char)
    (h : ¬ vsiSep <:+: stem) :
    save_url tif_folder (String.mk (stem ++ vsiSep)) =
      osPathJoin tif_folder (String.mk stem ++ ".tif") := by
  unfold save_url save_name
  rw [show (String.mk (stem ++ vsiSep)).data = stem ++ vsiSep from rfl]
  rw [splitFirst_append_vsiSep stem h]

/-- Witness for C5 (amended) at the stem `slide`. -/
theorem save_url_first_occurrence_witness :
    save_url "out" (String.mk (['s', 'l', 'i', 'd', 'e'] ++ vsiSep)) =
      osPathJoin "out" (String.mk ['s', 'l', 'i', 'd', 'e'] ++ ".tif") :=
  save_url_first_occurrence "out" ['s', 'l', 'i', 'd', 'e'] (by decide)

/-- C10: discovery selects any directory entry whose name ends with
`'.vsi'` without consulting the entry's kind, so a subdirectory with that
suffix is discovered and submitted as a conversion task. -/
theorem vsi_named_directory_discovered_and_submitted
    (d : List DirEntry) (e : DirEntry) (he : e ∈ d)
    (hsuf : endsWithVsi e.name = true)
    (gigs maxw : Int) (hg : 0 < gigs) (hw : 0 < maxw)
    (vf tf : String) (bhv : String → CodecBehavior) :
    e.name ∈ discoverVsiFiles d ∧
      Event.submit e.name ∈ run_conversion gigs maxw d vf tf bhv := by
  have hmem : e.name ∈ (listdir d).filter (fun f => endsWithVsi f) :=
    List.mem_filter.mpr ⟨List.mem_map.mpr ⟨e, he, rfl⟩, hsuf⟩
  have hdisc : e.name ∈ discoverVsiFiles d :=
    ((List.perm_insertionSort strLe _).mem_iff).mpr hmem
  refine ⟨hdisc, ?_⟩
  have hne : discoverVsiFiles d ≠ [] := List.ne_nil_of_mem hdisc
  unfold run_conversion
  rw [if_neg (by omega), if_neg (by omega), if_neg hne]
  have h1 : Event.submit e.name ∈ (discoverVsiFiles d).map Event.submit :=
    List.mem_map_of_mem _ hdisc
  exact List.mem_append_right _
    (List.mem_append_left _ (List.mem_append_left _ h1))

/-- Witness for C10: a subdirectory named `thumbs.vsi` is discovered and
submitted. -/
theorem vsi_named_directory_discovered_and_submitted_witness :
    vsiNamedSubdir.name ∈ discoverVsiFiles [vsiNamedSubdir] ∧
      Event.submit vsiNamedSubdir.name ∈
        run_conversion 28 2 [vsiNamedSubdir] "src" "dst" allOk :=
  vsi_named_directory_discovered_and_submitted [vsiNamedSubdir] vsiNamedSubdir
    (by decide) (by decide) 28 2 (by decide) (by decide) "src" "dst" allOk



/-- C3: when `gigs_of_memory <= 0` or `max_workers <= 0`, `run_conversion`
only shows an invalid-input error box and returns: no filesystem access,
no JVM memory option, no ImageJ initialisation and no task submission
happen. -/
theorem invalid_config_no_work (gigs maxw : Int)
    (h : gigs ≤ 0 ∨ maxw ≤ 0) (dir : List DirEntry) (vf tf : String)
    (bhv : String → CodecBehavior) :
    (∃ msg, run_conversion gigs maxw dir vf tf bhv =
        [Event.criticalBox "Input Error" msg]) ∧
      Event.listDir ∉ run_conversion gigs maxw dir vf tf bhv ∧
      Event.imagejInit ∉ run_conversion gigs maxw dir vf tf bhv ∧
      (∀ g, Event.addOption g ∉ run_conversion gigs maxw dir vf tf bhv) ∧
      (∀ f, Event.submit f ∉ run_conversion gigs maxw dir vf tf bhv) := by
  by_cases hg : gigs ≤ 0
  · unfold run_conversion
    rw [if_pos hg]
    exact ⟨⟨_, rfl⟩, by simp, by simp, by simp, by simp⟩
  · have hw : maxw ≤ 0 := by tauto
    unfold run_conversion
    rw [if_neg hg, if_pos hw]
    exact ⟨⟨_, rfl⟩, by simp, by simp, by simp, by simp⟩

/-- Witness for C3 at `gigs_of_memory = 0`, `max_workers = -1`. -/
theorem invalid_config_no_work_witness :
    Event.listDir ∉ run_conversion 0 (-1) [vsiNamedSubdir] "src" "dst" allOk :=
  (invalid_config_no_work 0 (-1) (Or.inl (by decide)) [vsiNamedSubdir]
    "src" "dst" allOk).2.1

/-- C6: with a valid configuration and zero discovered `.vsi` files, the
run ends with the informational no-files box: no error box, no submitted
task, no per-file notification. -/
theorem empty_discovery_informational (gigs maxw : Int) (hg : 0 < gigs)
    (hw : 0 < maxw) (dir : List DirEntry) (vf tf : String)
    (bhv : String → CodecBehavior) (hempty : discoverVsiFiles dir = []) :
    run_conversion gigs maxw dir vf tf bhv =
        [Event.addOption gigs, Event.imagejInit, Event.listDir,
          Event.infoBox "No Files" "No VSI files found in the selected folder."] ∧
      (∀ t msg, Event.criticalBox t msg ∉ run_conversion gigs maxw dir vf tf bhv) ∧
      (∀ f, Event.submit f ∉ run_conversion gigs maxw dir vf tf bhv) ∧
      (∀ n, Event.notify n ∉ run_conversion gigs maxw dir vf tf bhv) := by
  have heq : run_conversion gigs maxw dir vf tf bhv =
      [Event.addOption gigs, Event.imagejInit, Event.listDir,
        Event.infoBox "No Files" "No VSI files found in the selected folder."] := by
    unfold run_conversion
    rw [if_neg (by omega), if_neg (by omega), if_pos hempty]
    rfl
  refine ⟨heq, ?_, ?_, ?_⟩ <;> simp [heq]

/-- Witness for C6 on a directory holding only `notes.txt`. -/
theorem empty_discovery_informational_witness :
    run_conversion 28 2 nonVsiDir "src" "dst" allOk =
      [Event.addOption 28, Event.imagejInit, Event.listDir,
        Event.infoBox "No Files" "No VSI files found in the selected folder."] :=
  (empty_discovery_informational 28 2 (by decide) (by decide) nonVsiDir
    "src" "dst" allOk (by decide)).1

/-- C7 counterexample: with zero discovered files the completion box of
line 110 is never shown — the run returns at line 98 after the no-files
box, so the count of completion signals is 0, not 1. -/
theorem no_completion_signal_when_no_files :
    run_conversion 28 2 [] "src" "dst" allOk =
        [Event.addOption 28, Event.imagejInit, Event.listDir,
          Event.infoBox "No Files" "No VSI files found in the selected folder."] ∧
      List.count completionEvent (run_conversion 28 2 [] "src" "dst" allOk) = 0 :=
  ⟨by decide, by decide⟩

/-- C7 (amended): for every run that passes validation and discovers at
least one input file, exactly one completion signal is emitted, as the
last event, after all per-file notifications, independent of the mix of
successes and failures; when zero files are discovered no completion
signal is emitted. -/
theorem completion_signal_exactly_once (gigs maxw : Int) (hg : 0 < gigs)
    (hw : 0 < maxw) (dir : List DirEntry) (vf tf : String)
    (bhv : String → CodecBehavior) (hne : discoverVsiFiles dir ≠ []) :
    List.count completionEvent (run_conversion gigs maxw dir vf tf bhv) = 1 ∧
      (run_conversion gigs maxw dir vf tf bhv).getLast? = some completionEvent := by
  have heq : run_conversion gigs maxw dir vf tf bhv =
      ([Event.addOption gigs, Event.imagejInit, Event.listDir] ++
        ((discoverVsiFiles dir).map Event.submit ++
          (runExecutor (discoverVsiFiles dir) vf tf bhv).map Event.notify)) ++
        [completionEvent] := by
    unfold run_conversion
    rw [if_neg (by omega), if_neg (by omega), if_neg hne]
    simp [List.append_assoc]
  constructor
  · rw [heq, List.count_append]
    have h1 : List.count completionEvent
        ([Event.addOption gigs, Event.imagejInit, Event.listDir] ++
          ((discoverVsiFiles dir).map Event.submit ++
            (runExecutor (discoverVsiFiles dir) vf tf bhv).map Event.notify)) = 0 := by
      rw [List.count_eq_zero]
      simp [completionEvent]
    rw [h1]
    rfl
  · rw [heq, List.getLast?_concat]

/-- Witness for C7 (amended) on a directory holding `a.vsi`. -/
theorem completion_signal_exactly_once_witness :
    List.count completionEvent (run_conversion 28 2 singleVsiDir "src" "dst" allOk) = 1 ∧
      (run_conversion 28 2 singleVsiDir "src" "dst" allOk).getLast? =
        some completionEvent :=
  completion_signal_exactly_once 28 2 (by decide) (by decide) singleVsiDir
    "src" "dst" allOk (by decide)

/-- C2: with a valid configuration, the submitted tasks are exactly the
discovered files — one task per file — and the per-file notifications
reference exactly the discovered files, one notification per file: no task
is lost or duplicated. -/
theorem one_result_per_discovered_file (gigs maxw : Int)
    (hg : 0 < gigs) (hw : 0 < maxw) (dir : List DirEntry) (vf tf : String)
    (bhv : String → CodecBehavior) :
    (run_conversion gigs maxw dir vf tf bhv).filterMap Event.submittedFile =
        discoverVsiFiles dir ∧
      (run_conversion gigs maxw dir vf tf bhv).filterMap Event.notifiedFile =
        discoverVsiFiles dir := by
  unfold run_conversion
  rw [if_neg (by omega), if_neg (by omega)]
  by_cases hempty : discoverVsiFiles dir = []
  · rw [if_pos hempty, hempty]
    exact ⟨rfl, rfl⟩
  · rw [if_neg hempty]
    constructor
    · rw [List.filterMap_append, List.filterMap_append, List.filterMap_append,
        filterMap_submittedFile_submits, filterMap_submittedFile_notifies]
      simp [List.filterMap_cons, Event.submittedFile, completionEvent]
    · rw [List.filterMap_append, List.filterMap_append, List.filterMap_append,
        filterMap_notifiedFile_submits, filterMap_notifiedFile_notifies,
        runExecutor_map_file]
      simp [List.filterMap_cons, Event.notifiedFile, completionEvent]

/-- Witness for C2 on the three-file scenario directory. -/
theorem one_result_per_discovered_file_witness :
    (run_conversion 28 2 scenarioDir "src" "dst" allOk).filterMap
        Event.submittedFile = discoverVsiFiles scenarioDir ∧
      (run_conversion 28 2 scenarioDir "src" "dst" allOk).filterMap
        Event.notifiedFile = discoverVsiFiles scenarioDir :=
  one_result_per_discovered_file 28 2 (by decide) (by decide) scenarioDir
    "src" "dst" allOk



/-- C1 counterexample: for a task whose decode (`ij.io().open`, line 123)
raises, the executor-level result is success — `future.result()` returns
normally because the task caught the error itself — so the executor's
per-file notification for that file reports success, and no Failure
notification is yielded at the executor for any file. -/
theorem codec_error_reported_ok_by_executor :
    runExecutor ["a.vsi"] "src" "dst" corruptBhvMap =
        [Notification.processedOk "a.vsi"] ∧
      (runExecutor ["a.vsi"] "src" "dst" corruptBhvMap).any
        Notification.isFailure = false :=
  ⟨by decide, by decide⟩

/-- C1 (amended): for every task whose codec invocation inside the `try`
(decode of the .vsi file or write of the .tif file, lines 122-127) raises,
the error is caught inside the task, which prints its own per-file error
message naming the input; the task's future completes normally — so the
executor-level notification for that file reports success, not failure —
the error never propagates out of the executor, and all tasks still yield
exactly one notification each. -/
theorem codec_error_contained_in_task (files : List String) (vf tf : String)
    (bhv : String → CodecBehavior) (file m : String) (hf : file ∈ files)
    (hpre : (bhv file).preTryErr = none)
    (htry : firstTryErr (bhv file) = some m) :
    TaskEvent.printError file m ∈ (convert_vsi_to_tif file vf tf (bhv file)).2 ∧
      (convert_vsi_to_tif file vf tf (bhv file)).1 = PyResult.ok () ∧
      Notification.processedOk file ∈ runExecutor files vf tf bhv ∧
      (runExecutor files vf tf bhv).length = files.length := by
  have hconv : TaskEvent.printError file m ∈
      (convert_vsi_to_tif file vf tf (bhv file)).2 ∧
      (convert_vsi_to_tif file vf tf (bhv file)).1 = PyResult.ok () := by
    rcases hbf : bhv file with ⟨p, o, fj, v, w⟩
    rw [hbf] at hpre htry
    simp only at hpre
    subst hpre
    cases o with
    | some m2 =>
      simp only [firstTryErr, Option.some.injEq] at htry
      subst htry
      simp [convert_vsi_to_tif, finallyEvents]
    | none =>
      cases fj with
      | some m2 =>
        simp only [firstTryErr, Option.some.injEq] at htry
        subst htry
        simp [convert_vsi_to_tif, finallyEvents]
      | none =>
        cases v with
        | some m2 =>
          simp only [firstTryErr, Option.some.injEq] at htry
          subst htry
          simp [convert_vsi_to_tif, finallyEvents]
        | none =>
          cases w with
          | some m2 =>
            simp only [firstTryErr, Option.some.injEq] at htry
            subst htry
            simp [convert_vsi_to_tif, finallyEvents]
          | none => simp [firstTryErr] at htry
  obtain ⟨hmem, hok⟩ := hconv
  have hnotif : futureNotification vf tf bhv file = Notification.processedOk file := by
    unfold futureNotification
    rw [hok]
  exact ⟨hmem, hok, List.mem_map.mpr ⟨file, hf, hnotif⟩, by simp [runExecutor]⟩

/-- Witness for C1 (amended): a single file whose decode raises. -/
theorem codec_error_contained_in_task_witness :
    TaskEvent.printError "a.vsi" "corrupt" ∈
        (convert_vsi_to_tif "a.vsi" "src" "dst" (corruptBhvMap "a.vsi")).2 ∧
      (convert_vsi_to_tif "a.vsi" "src" "dst" (corruptBhvMap "a.vsi")).1 =
        PyResult.ok () ∧
      Notification.processedOk "a.vsi" ∈
        runExecutor ["a.vsi"] "src" "dst" corruptBhvMap ∧
      (runExecutor ["a.vsi"] "src" "dst" corruptBhvMap).length =
        (["a.vsi"] : List String).length :=
  codec_error_contained_in_task ["a.vsi"] "src" "dst" corruptBhvMap
    "a.vsi" "corrupt" (by decide) rfl rfl

/-- C8: in the small-step executor model of the thread pool of line 100,
every state reachable from the initial state has at most `max_workers`
tasks in flight; with `max_workers = 1` this means no two tasks are ever
in flight at the same time, regardless of how many tasks were submitted. -/
theorem executor_bounded_inflight (maxWorkers : Nat) (hN : 1 ≤ maxWorkers)
    (files : List String) (s : ExecState)
    (h : Reachable maxWorkers files s) :
    s.running.length ≤ maxWorkers := by
  induction h with
  | refl => exact Nat.zero_le _
  | tail hsteps hstep ih =>
    cases hstep with
    | start f pending running finished hfree => exact hfree
    | finish f pending l r finished =>
      simp only [List.length_append, List.length_cons] at ih ⊢
      omega

/-- Witness for C8: after starting the first of two submitted tasks with
`max_workers = 1`, at most one task is in flight. -/
theorem executor_bounded_inflight_witness :
    (ExecState.mk ["b.vsi"] ["a.vsi"] []).running.length ≤ 1 :=
  executor_bounded_inflight 1 (by decide) ["a.vsi", "b.vsi"]
    (ExecState.mk ["b.vsi"] ["a.vsi"] [])
    (Relation.ReflTransGen.single
      (ExecStep.start "a.vsi" ["b.vsi"] [] [] (by decide)))

/-- C9: on every exit path of `convert_vsi_to_tif` — success or any caught
codec error — each decoded-image local that was assigned (`jimage` from
the decode, `image_array` from the conversion) is deleted and a garbage
collection is forced before the task returns; a buffer is acquired exactly
when its acquisition event is in the trace, and then its deletion and the
collection are also in the trace. -/
theorem buffers_released_on_every_exit (vsi_file vsi_folder tif_folder : String)
    (b : CodecBehavior) :
    (TaskEvent.openImage (osPathJoin vsi_folder vsi_file) ∈
        (convert_vsi_to_tif vsi_file vsi_folder tif_folder b).2 →
      TaskEvent.delJimage ∈ (convert_vsi_to_tif vsi_file vsi_folder tif_folder b).2 ∧
        TaskEvent.gcCollect ∈ (convert_vsi_to_tif vsi_file vsi_folder tif_folder b).2) ∧
      (TaskEvent.fromJava ∈ (convert_vsi_to_tif vsi_file vsi_folder tif_folder b).2 →
        TaskEvent.delImageArray ∈
            (convert_vsi_to_tif vsi_file vsi_folder tif_folder b).2 ∧
          TaskEvent.gcCollect ∈ (convert_vsi_to_tif vsi_file vsi_folder tif_folder b).2) := by
  obtain ⟨p, o, fj, v, w⟩ := b
  cases p <;> cases o <;> cases fj <;> cases v <;> cases w <;>
    simp [convert_vsi_to_tif, finallyEvents]

/-- Witness for C9 on the all-success path. -/
theorem buffers_released_on_every_exit_witness :
    TaskEvent.delJimage ∈ (convert_vsi_to_tif "a.vsi" "src" "dst" noErr).2 ∧
      TaskEvent.gcCollect ∈ (convert_vsi_to_tif "a.vsi" "src" "dst" noErr).2 :=
  (buffers_released_on_every_exit "a.vsi" "src" "dst" noErr).1 (by decide)


end Vsi2Tif
